import Mathlib

/-!
Shallow embedding of `src/inventory.py` (aws-storage-inventory): six
per-resource-type storage size lookups, each translating a provider API
response into uniform size records.  Provider clients are modelled as
records of pure functions from request parameters to responses; errors
raised by the Python code become `Except` errors.
-/

namespace Inventory

/-- A uniform size record: account, region, resource key, size in bytes.
Sizes are rationals since some provider fields are floating-point. -/
structure SizeRecord where
  account_id : String
  region_name : String
  resource_key : String
  size_bytes : ℚ
deriving DecidableEq, Repr

/-- Model of Python `str.startswith`: the argument's characters are an
initial segment of the receiver's characters. -/
def strStartsWith (s p : String) : Bool := s.data.take p.data.length = p.data

/-- Model of Python `int()` applied to a number: truncation toward zero. -/
def pyInt (q : ℚ) : ℤ := q.num.tdiv q.den

/-! ## EC2: `get_ec2_instance_size` -/

/-- The `Ebs` sub-object of a block device mapping. -/
structure Ebs where
  volumeId : String
deriving DecidableEq, Repr

structure BlockDeviceMapping where
  ebs : Ebs
deriving DecidableEq, Repr

structure Ec2Instance where
  blockDeviceMappings : List BlockDeviceMapping
deriving DecidableEq, Repr

structure Reservation where
  instances : List Ec2Instance
deriving DecidableEq, Repr

/-- An EBS volume as returned by `describe_volumes`; `size` is in GiB. -/
structure Volume where
  volumeId : String
  size : ℕ
deriving DecidableEq, Repr

/-- The EC2 client: `describe_instances` (for one instance id) and
`describe_volumes` (for a list of volume ids). -/
structure Ec2Client where
  describeInstances : String → List Reservation
  describeVolumes : List String → List Volume

/-- The nested loop of `get_ec2_instance_size` collecting every attached
volume id from the instance metadata. -/
def collect_volume_ids (ec2 : Ec2Client) (instance_id : String) : List String :=
  (ec2.describeInstances instance_id).flatMap fun reservation =>
    reservation.instances.flatMap fun inst =>
      inst.blockDeviceMappings.map fun bdm => bdm.ebs.volumeId

/-- `get_ec2_instance_size` from `src/inventory.py` lines 7-24. -/
def get_ec2_instance_size (ec2 : Ec2Client) (account_id region_name instance_id : String) :
    List SizeRecord :=
  let volume_ids := collect_volume_ids ec2 instance_id
  (ec2.describeVolumes volume_ids).map fun volume =>
    ⟨account_id, region_name, instance_id ++ "::" ++ volume.volumeId,
      (volume.size : ℚ) * 1024 * 1024 * 1024⟩

/-! ## RDS cluster: `get_rds_cluster_size` -/

/-- A DB cluster record; `allocatedStorage` is in GiB. -/
structure DBCluster where
  engine : String
  allocatedStorage : ℕ
deriving DecidableEq, Repr

/-- A CloudWatch datapoint for the `VolumeBytesUsed` metric: `maximum` is
the Maximum statistic (bytes, possibly fractional). -/
structure RdsDatapoint where
  timestamp : ℤ
  maximum : ℚ
deriving DecidableEq, Repr

instance : Inhabited RdsDatapoint := ⟨⟨0, 0⟩⟩

/-- Stable insertion step for a sort descending by an integer key: `x`
precedes every already-placed element whose key is not greater, so
elements with equal keys keep their original relative order. -/
def insert_desc {α : Type} (key : α → ℤ) (x : α) : List α → List α
  | [] => [x]
  | y :: ys => if key y ≤ key x then x :: y :: ys else y :: insert_desc key x ys

/-- Model of Python `sorted(l, key=key, reverse=True)`: the stable sort
descending by `key`.  Python's sort is stable, and a stable sort's output
is uniquely determined by the input, so this insertion sort computes
exactly the same list as CPython's timsort. -/
def sort_desc {α : Type} (key : α → ℤ) : List α → List α
  | [] => []
  | x :: xs => insert_desc key x (sort_desc key xs)

/-- Python `sorted(datapoints, key=lambda d: d['Timestamp'], reverse=True)`. -/
def sort_datapoints_desc (dps : List RdsDatapoint) : List RdsDatapoint :=
  sort_desc (fun d => d.timestamp) dps

def rds_cluster_not_found_message (db_cluster_identifier : String) : String :=
  "DB Cluster " ++ db_cluster_identifier ++ " was not found"

def rds_metric_not_found_message (db_cluster_identifier : String) : String :=
  "The VolumeBytesUsed metric was not found for DB cluster " ++ db_cluster_identifier

/-- `get_rds_cluster_size` from `src/inventory.py` lines 27-67.
`clusters` is the `DBClusters` field of the `describe_db_clusters`
response; `datapoints_response` is the `Datapoints` field of the
`get_metric_statistics` response (consulted only on the aurora path). -/
def get_rds_cluster_size (clusters : List DBCluster) (datapoints_response : List RdsDatapoint)
    (account_id region_name db_cluster_identifier : String) : Except String SizeRecord :=
  match clusters with
  | [] => .error (rds_cluster_not_found_message db_cluster_identifier)
  | cluster :: _ =>
    if ¬ strStartsWith cluster.engine "aurora-" then
      .ok ⟨account_id, region_name, db_cluster_identifier,
        (cluster.allocatedStorage : ℚ) * 1024 * 1024 * 1024⟩
    else if datapoints_response = [] then
      .error (rds_metric_not_found_message db_cluster_identifier)
    else
      let datapoints := sort_datapoints_desc datapoints_response
      .ok ⟨account_id, region_name, db_cluster_identifier,
        ((pyInt (datapoints.headD default).maximum : ℤ) : ℚ)⟩

/-! ## RDS instance: `get_rds_instance_size` -/

/-- A DB instance record; `allocatedStorage` is in GiB. -/
structure DBInstance where
  allocatedStorage : ℕ
deriving DecidableEq, Repr

/-- `get_rds_instance_size` from `src/inventory.py` lines 70-81. -/
def get_rds_instance_size (instances : List DBInstance)
    (account_id region_name db_instance_identifier : String) : Except String SizeRecord :=
  match instances with
  | [] => .error ("DB Instance " ++ db_instance_identifier ++ " was not found")
  | inst :: _ =>
    .ok ⟨account_id, region_name, db_instance_identifier,
      (inst.allocatedStorage : ℚ) * 1024 * 1024 * 1024⟩

/-! ## EFS: `get_efs_file_system_size` -/

/-- The `SizeInBytes` sub-object of a file system description. -/
structure SizeInBytes where
  value : ℕ
deriving DecidableEq, Repr

structure FileSystem where
  sizeInBytes : SizeInBytes
deriving DecidableEq, Repr

/-- `get_efs_file_system_size` from `src/inventory.py` lines 84-97. -/
def get_efs_file_system_size (file_systems : List FileSystem)
    (account_id region_name file_system_id : String) : Except String SizeRecord :=
  match file_systems with
  | [] =>
    .error ("File system " ++ file_system_id ++ " in region " ++ region_name ++
      " could not be found")
  | fs :: _ => .ok ⟨account_id, region_name, file_system_id, (fs.sizeInBytes.value : ℚ)⟩

/-! ## DynamoDB: `get_dynamodb_table_size` -/

/-- The `Table` field of a `describe_table` response. -/
structure DdbTable where
  tableSizeBytes : ℕ
deriving DecidableEq, Repr

/-- `get_dynamodb_table_size` from `src/inventory.py` lines 100-109. -/
def get_dynamodb_table_size (table : DdbTable) (account_id region_name table_name : String) :
    SizeRecord :=
  ⟨account_id, region_name, table_name, (table.tableSizeBytes : ℚ)⟩

/-! ## Redshift: `get_redshift_cluster_size` -/

/-- A cluster snapshot; `totalBackupSizeInMegaBytes` is reported as a
floating-point number of MiB. -/
structure Snapshot where
  snapshotCreateTime : ℤ
  totalBackupSizeInMegaBytes : ℚ
deriving DecidableEq, Repr

instance : Inhabited Snapshot := ⟨⟨0, 0⟩⟩

/-- Python `sorted(snapshots, key=lambda s: s['SnapshotCreateTime'], reverse=True)`. -/
def sort_snapshots_desc (snaps : List Snapshot) : List Snapshot :=
  sort_desc (fun s => s.snapshotCreateTime) snaps

def redshift_no_snapshots_message (cluster_identifier : String) : String :=
  "Cluster " ++ cluster_identifier ++ " does not have any snapshots in the last seven days"

/-- `get_redshift_cluster_size` from `src/inventory.py` lines 112-133.
`snapshots_response` is the `Snapshots` field of the
`describe_cluster_snapshots` response (already restricted to the trailing
7 days by the provider; its ordering is whatever the provider returned). -/
def get_redshift_cluster_size (snapshots_response : List Snapshot)
    (account_id region_name cluster_identifier : String) : Except String SizeRecord :=
  let snapshots := sort_snapshots_desc snapshots_response
  if snapshots = [] then
    .error (redshift_no_snapshots_message cluster_identifier)
  else
    let last_snapshot := snapshots.headD default
    .ok ⟨account_id, region_name, cluster_identifier,
      last_snapshot.totalBackupSizeInMegaBytes * 1024 * 1024⟩

/-! ## S3: `get_bucket_size` -/

/-- Errors of `get_bucket_size`: an `Exception` with a message, or an
uncaught Python `IndexError` from indexing `[0]` into an empty list. -/
inductive PyError where
  | exc (msg : String)
  | indexError
deriving DecidableEq, Repr

/-- One CloudWatch metric dimension (`Name`/`Value`). -/
structure Dimension where
  name : String
  value : String
deriving DecidableEq, Repr

/-- One metric from the `list_metrics` listing: its dimension set. -/
structure Metric where
  dimensions : List Dimension
deriving DecidableEq, Repr

/-- One page of the `list_metrics` paginator. -/
structure MetricsPage where
  metrics : List Metric
deriving DecidableEq, Repr

/-- A CloudWatch datapoint for a `BucketSizeBytes` query: the Average
statistic, already in bytes. -/
structure S3Datapoint where
  average : ℚ
deriving DecidableEq, Repr

/-- The S3 client. `getBucketLocation` either fails (nonexistent bucket,
invalid credentials, ...) with an exception message, or returns the
`LocationConstraint` field, which the provider may omit (`none`) or
report as the empty string for the default region. -/
structure S3Client where
  getBucketLocation : String → Except String (Option String)

/-- The CloudWatch client used by `get_bucket_size`: `listMetrics` gives
the paginated `BucketSizeBytes` metric listing for a bucket name, and
`getMetricStatistics` gives the `Datapoints` of the average-statistics
query for a dimension set over the trailing 2-day window. -/
structure CloudwatchClient where
  listMetrics : String → List MetricsPage
  getMetricStatistics : List Dimension → List S3Datapoint

/-- The `backup_storage_types` allow-list, `src/inventory.py` lines 146-156. -/
def backup_storage_types : List String := [
  "StandardStorage",
  "StandardIAStorage",
  "OneZoneIAStorage",
  "GlacierInstantRetrievalStorage",
  "IntelligentTieringFAStorage",
  "IntelligentTieringIAStorage",
  "IntelligentTieringAAStorage",
  "IntelligentTieringAIAStorage",
  "IntelligentTieringDAAStorage"
]

/-- The `other_storage_types` list, `src/inventory.py` lines 157-172
(declared in the source but never consulted by the logic). -/
def other_storage_types : List String := [
  "StandardIASizeOverhead",
  "StandardIAObjectOverhead",
  "OneZoneIASizeOverhead",
  "ReducedRedundancyStorage",
  "GlacierInstantRetrievalSizeOverhead",
  "GlacierInstantRetrievalStorage",
  "GlacierStorage",
  "GlacierStagingStorage",
  "GlacierObjectOverhead",
  "GlacierS3ObjectOverhead",
  "DeepArchiveStorage",
  "DeepArchiveObjectOverhead",
  "DeepArchiveS3ObjectOverhead",
  "DeepArchiveStagingStorage"
]

/-- `response.get('LocationConstraint') or 'us-east-1'`: Python `or`
replaces both a missing value and the empty string by the default. -/
def normalize_location (lc : Option String) : String :=
  match lc with
  | none => "us-east-1"
  | some s => if s = "" then "us-east-1" else s

def region_mismatch_message (bucket_name region_name : String) : String :=
  "Bucket " ++ bucket_name ++ " is not in Region " ++ region_name

def bucket_wrap_message (bucket_name region_name inner : String) : String :=
  "Bucket " ++ bucket_name ++ " was not found in Region " ++ region_name ++
    " or credentials are invalid. Inner exception " ++ inner

/-- The `try`/`except` validation phase of `get_bucket_size`,
`src/inventory.py` lines 138-144: fetch the bucket location, normalize
it, raise on mismatch; any exception in the block is caught and
re-raised wrapped in the not-found-or-unauthorized message. -/
def bucket_validation (s3 : S3Client) (bucket_name region_name : String) : Except PyError Unit :=
  let phase : Except String Unit :=
    match s3.getBucketLocation bucket_name with
    | .error e => .error e
    | .ok lc =>
      let location_constraint := normalize_location lc
      if location_constraint ≠ region_name then
        .error (region_mismatch_message bucket_name region_name)
      else
        .ok ()
  match phase with
  | .error exc => .error (.exc (bucket_wrap_message bucket_name region_name exc))
  | .ok _ => .ok ()

/-- `[d['Value'] for d in metric['Dimensions'] if d['Name'] == 'StorageType'][0]`,
`src/inventory.py` line 187: indexing `[0]` raises IndexError when no
`StorageType` dimension exists. -/
def extract_storage_type (metric : Metric) : Except PyError String :=
  match (metric.dimensions.filter fun d => d.name = "StorageType").map (fun d => d.value) with
  | [] => .error .indexError
  | storage_type :: _ => .ok storage_type

/-- The metric-dimension extraction loop, `src/inventory.py` lines 184-188. -/
def extract_metric_dimensions (metrics : List Metric) :
    Except PyError (List (String × List Dimension)) :=
  metrics.mapM fun metric =>
    (extract_storage_type metric).map fun storage_type => (storage_type, metric.dimensions)

/-- The statistics-collection loop, `src/inventory.py` lines 193-207.
For each `(storage_type, dimensions)` pair, in order, the statistics
query is issued (its dimension set is recorded in the first component of
the result, the query trace); then, only if the storage type is in the
allow-list, `Datapoints[0]` is indexed (IndexError when empty) and a
record is appended. -/
def collect_metric_data (cloudwatch : CloudwatchClient)
    (account_id region_name bucket_name : String) :
    List (String × List Dimension) → Except PyError (List (List Dimension) × List SizeRecord)
  | [] => .ok ([], [])
  | (storage_type, dimensions) :: rest =>
    let response := cloudwatch.getMetricStatistics dimensions
    if storage_type ∈ backup_storage_types then
      match response with
      | [] => .error .indexError
      | datapoint :: _ =>
        match collect_metric_data cloudwatch account_id region_name bucket_name rest with
        | .error e => .error e
        | .ok (queried, records) =>
          .ok (dimensions :: queried,
            ⟨account_id, region_name, bucket_name ++ "::" ++ storage_type,
              datapoint.average⟩ :: records)
    else
      match collect_metric_data cloudwatch account_id region_name bucket_name rest with
      | .error e => .error e
      | .ok (queried, records) => .ok (dimensions :: queried, records)

instance : Inhabited S3Datapoint := ⟨⟨0⟩⟩

/-- Success value of `get_bucket_size`: the returned `metric_data`
records, together with the trace of dimension sets for which a
`get_metric_statistics` query was issued. -/
structure BucketSizeResult where
  queried_dimensions : List (List Dimension)
  metric_data : List SizeRecord
deriving DecidableEq, Repr

/-- `get_bucket_size` from `src/inventory.py` lines 136-208. -/
def get_bucket_size (s3 : S3Client) (cloudwatch : CloudwatchClient)
    (account_id region_name bucket_name : String) : Except PyError BucketSizeResult :=
  match bucket_validation s3 bucket_name region_name with
  | .error e => .error e
  | .ok _ =>
    let metrics := (cloudwatch.listMetrics bucket_name).flatMap fun page => page.metrics
    match extract_metric_dimensions metrics with
    | .error e => .error e
    | .ok metric_dimensions =>
      match collect_metric_data cloudwatch account_id region_name bucket_name metric_dimensions with
      | .error e => .error e
      | .ok (queried, records) => .ok ⟨queried, records⟩

/-! ## Helper lemmas about the stable descending sort -/

theorem insert_desc_ne_nil {α : Type} (key : α → ℤ) (x : α) (l : List α) :
    insert_desc key x l ≠ [] := by
  cases l with
  | nil => simp [insert_desc]
  | cons y ys =>
    simp only [insert_desc]
    split <;> simp

theorem sort_desc_eq_nil_iff {α : Type} (key : α → ℤ) (l : List α) :
    sort_desc key l = [] ↔ l = [] := by
  cases l with
  | nil => simp [sort_desc]
  | cons x xs =>
    simp only [sort_desc]
    exact ⟨fun h => absurd h (insert_desc_ne_nil key x _), fun h => nomatch h⟩

theorem insert_desc_perm {α : Type} (key : α → ℤ) (x : α) (l : List α) :
    (insert_desc key x l).Perm (x :: l) := by
  induction l with
  | nil => simp [insert_desc]
  | cons y ys ih =>
    simp only [insert_desc]
    split
    · exact .refl _
    · exact (ih.cons y).trans (List.Perm.swap x y ys)

theorem sort_desc_perm {α : Type} (key : α → ℤ) (l : List α) :
    (sort_desc key l).Perm l := by
  induction l with
  | nil => simp [sort_desc]
  | cons x xs ih =>
    exact (insert_desc_perm key x (sort_desc key xs)).trans (ih.cons x)

theorem mem_sort_desc {α : Type} (key : α → ℤ) (l : List α) (z : α) :
    z ∈ sort_desc key l ↔ z ∈ l :=
  (sort_desc_perm key l).mem_iff

/-- The first element of the stable descending sort of a non-empty list
is an element of the list whose key is greatest. -/
theorem sort_desc_headD_max {α : Type} [Inhabited α] (key : α → ℤ) :
    ∀ l : List α, l ≠ [] →
      ((sort_desc key l).headD default ∈ l ∧
        ∀ x ∈ l, key x ≤ key ((sort_desc key l).headD default)) := by
  intro l
  induction l with
  | nil => intro h; exact absurd rfl h
  | cons x xs ih =>
    intro _
    by_cases hxs : xs = []
    · subst hxs
      refine ⟨by simp [sort_desc, insert_desc], ?_⟩
      intro z hz
      simp only [List.mem_singleton] at hz
      simp [hz, sort_desc, insert_desc]
    · obtain ⟨hmem, hmax⟩ := ih hxs
      have hnil : sort_desc key xs ≠ [] := by
        simpa [sort_desc_eq_nil_iff] using hxs
      obtain ⟨y, ys, hys⟩ := List.exists_cons_of_ne_nil hnil
      rw [hys] at hmem hmax
      simp only [List.headD_cons] at hmem hmax
      simp only [sort_desc, hys, insert_desc]
      split
      · rename_i hyx
        refine ⟨by simp, ?_⟩
        intro z hz
        rcases List.mem_cons.mp hz with hzx | hzxs
        · simp [hzx]
        · exact le_trans (hmax z hzxs) hyx
      · rename_i hyx
        push_neg at hyx
        refine ⟨by simp [List.mem_cons.mpr (Or.inr hmem)], ?_⟩
        intro z hz
        rcases List.mem_cons.mp hz with hzx | hzxs
        · subst hzx; exact le_of_lt hyx
        · exact hmax z hzxs

/-! ## Helper lemmas about strings and the S3 lookup -/

theorem string_append_cancel_left (s t u : String) (h : s ++ t = s ++ u) : t = u := by
  have hd := congrArg String.data h
  simp only [String.data_append] at hd
  exact String.ext (List.append_cancel_left hd)

/-- The record built for one retained `(storage_type, dimensions)` pair:
key `"{bucket_name}::{storage_type}"`, size the Average statistic of
datapoint index 0 of the statistics response. -/
def bucket_record (cw : CloudwatchClient) (account_id region_name bucket_name : String)
    (p : String × List Dimension) : SizeRecord :=
  ⟨account_id, region_name, bucket_name ++ "::" ++ p.1,
    ((cw.getMetricStatistics p.2).headD default).average⟩

/-- Characterization of a successful run of the collection loop: the
query trace lists every metric's dimension set in order, the records are
the allow-listed metrics' records in order, and every allow-listed
metric had a non-empty datapoint list. -/
theorem collect_metric_data_ok (cw : CloudwatchClient) (a g b : String) :
    ∀ (mds : List (String × List Dimension)) (queried : List (List Dimension))
      (records : List SizeRecord),
      collect_metric_data cw a g b mds = .ok (queried, records) →
      queried = mds.map (fun p => p.2) ∧
      records = (mds.filter fun p => decide (p.1 ∈ backup_storage_types)).map
        (bucket_record cw a g b) ∧
      ∀ p ∈ mds, p.1 ∈ backup_storage_types → cw.getMetricStatistics p.2 ≠ [] := by
  intro mds
  induction mds with
  | nil =>
    intro queried records h
    simp only [collect_metric_data, Except.ok.injEq, Prod.mk.injEq] at h
    simp [← h.1, ← h.2]
  | cons hd tl ih =>
    intro queried records h
    obtain ⟨st, dims⟩ := hd
    simp only [collect_metric_data] at h
    by_cases hallow : st ∈ backup_storage_types
    · rw [if_pos hallow] at h
      cases hresp : cw.getMetricStatistics dims with
      | nil => rw [hresp] at h; exact absurd h (by simp)
      | cons dp rest =>
        rw [hresp] at h
        cases hrec : collect_metric_data cw a g b tl with
        | error e => rw [hrec] at h; exact absurd h (by simp)
        | ok qr =>
          obtain ⟨q, r⟩ := qr
          obtain ⟨hq, hr, hall⟩ := ih q r hrec
          rw [hrec] at h
          simp only [Except.ok.injEq, Prod.mk.injEq] at h
          refine ⟨?_, ?_, ?_⟩
          · rw [← h.1, hq]; simp
          · rw [← h.2, hr]
            simp [List.filter_cons, hallow, bucket_record, hresp]
          · intro p hp
            rcases List.mem_cons.mp hp with hph | hpt
            · subst hph; intro _; simp [hresp]
            · exact hall p hpt
    · rw [if_neg hallow] at h
      cases hrec : collect_metric_data cw a g b tl with
      | error e => rw [hrec] at h; exact absurd h (by simp)
      | ok qr =>
        obtain ⟨q, r⟩ := qr
        obtain ⟨hq, hr, hall⟩ := ih q r hrec
        rw [hrec] at h
        simp only [Except.ok.injEq, Prod.mk.injEq] at h
        refine ⟨?_, ?_, ?_⟩
        · rw [← h.1, hq]; simp
        · rw [← h.2, hr]
          simp [List.filter_cons, hallow]
        · intro p hp
          rcases List.mem_cons.mp hp with hph | hpt
          · subst hph; intro hc; exact absurd hc hallow
          · exact hall p hpt

/-- The collection loop fails (necessarily with an IndexError) as soon as
some allow-listed metric's statistics response has no datapoints. -/
theorem collect_metric_data_error_of_empty (cw : CloudwatchClient) (a g b : String) :
    ∀ (mds : List (String × List Dimension)) (p : String × List Dimension),
      p ∈ mds → p.1 ∈ backup_storage_types → cw.getMetricStatistics p.2 = [] →
      collect_metric_data cw a g b mds = .error .indexError := by
  intro mds
  induction mds with
  | nil => intro p hp; exact absurd hp (by simp)
  | cons hd tl ih =>
    intro p hp hallow hempty
    obtain ⟨st, dims⟩ := hd
    rcases List.mem_cons.mp hp with hph | hpt
    · subst hph
      simp only [collect_metric_data, if_pos hallow, hempty]
    · have htl := ih p hpt hallow hempty
      simp only [collect_metric_data, htl]
      by_cases hst : st ∈ backup_storage_types
      · rw [if_pos hst]
        cases hresp : cw.getMetricStatistics dims <;> simp
      · rw [if_neg hst]

/-- A successful `get_bucket_size` run decomposes into a successful
validation, extraction and collection. -/
theorem get_bucket_size_ok_elim (s3 : S3Client) (cw : CloudwatchClient) (a g b : String)
    (res : BucketSizeResult) (hok : get_bucket_size s3 cw a g b = .ok res) :
    bucket_validation s3 b g = .ok () ∧
    ∃ mds, extract_metric_dimensions ((cw.listMetrics b).flatMap fun page => page.metrics) =
        .ok mds ∧
      collect_metric_data cw a g b mds = .ok (res.queried_dimensions, res.metric_data) := by
  cases hval : bucket_validation s3 b g with
  | error e =>
    have hthis : get_bucket_size s3 cw a g b = .error e := by
      simp only [get_bucket_size, hval]
    rw [hthis] at hok
    exact absurd hok (by simp)
  | ok u =>
    cases u
    cases hex : extract_metric_dimensions ((cw.listMetrics b).flatMap fun page => page.metrics) with
    | error e =>
      have hthis : get_bucket_size s3 cw a g b = .error e := by
        simp only [get_bucket_size, hval, hex]
      rw [hthis] at hok
      exact absurd hok (by simp)
    | ok mds =>
      cases hcol : collect_metric_data cw a g b mds with
      | error e =>
        have hthis : get_bucket_size s3 cw a g b = .error e := by
          simp only [get_bucket_size, hval, hex, hcol]
        rw [hthis] at hok
        exact absurd hok (by simp)
      | ok qr =>
        obtain ⟨q, r⟩ := qr
        have heq : get_bucket_size s3 cw a g b = .ok ⟨q, r⟩ := by
          simp only [get_bucket_size, hval, hex, hcol]
        rw [heq] at hok
        have hres : BucketSizeResult.mk q r = res := by simpa using hok
        subst hres
        exact ⟨rfl, mds, rfl, hcol⟩

/-! ## Small auxiliary facts about `get_rds_cluster_size` -/

theorem get_rds_cluster_size_isOk (cl : DBCluster) (rest : List DBCluster)
    (dps : List RdsDatapoint) (a g c : String)
    (h : strStartsWith cl.engine "aurora-" = true → dps ≠ []) :
    ∃ r, get_rds_cluster_size (cl :: rest) dps a g c = .ok r := by
  cases hres : get_rds_cluster_size (cl :: rest) dps a g c with
  | ok r => exact ⟨r, rfl⟩
  | error e =>
    by_cases heng : strStartsWith cl.engine "aurora-" = true
    · simp [get_rds_cluster_size, heng, h heng] at hres
    · simp [get_rds_cluster_size, heng] at hres

/-! ## Concrete example providers used to instantiate the theorems -/

/-- The spec's end-to-end scenario: instance `i-1` with volumes `vol-a`
(20 GiB) and `vol-b` (100 GiB). -/
def ec2_example : Ec2Client :=
  ⟨fun iid => if iid = "i-1" then [⟨[⟨[⟨⟨"vol-a"⟩⟩, ⟨⟨"vol-b"⟩⟩]⟩]⟩] else [],
   fun vids => if vids = ["vol-a", "vol-b"] then [⟨"vol-a", 20⟩, ⟨"vol-b", 100⟩] else []⟩

def aurora_cluster_example : DBCluster := ⟨"aurora-mysql", 5⟩

/-- Aurora datapoints deliberately out of timestamp order; the greatest
timestamp is 9 with Maximum 55. -/
def aurora_datapoints_example : List RdsDatapoint := [⟨3, 17⟩, ⟨9, 55⟩, ⟨5, 100⟩]

/-- Snapshots deliberately out of creation-time order; the latest one
(time 5) has 99 MiB of backup. -/
def snapshots_example : List Snapshot := [⟨1, 10⟩, ⟨5, 99⟩, ⟨3, 7⟩]

/-- A bucket reporting the empty location constraint (the provider's
convention for the default region). -/
def s3_example : S3Client := ⟨fun _ => .ok (some "")⟩

/-- A provider call that fails, e.g. nonexistent bucket or bad credentials. -/
def s3_failing_example : S3Client := ⟨fun _ => .error "NoSuchBucket"⟩

def standard_dimensions_example : List Dimension :=
  [⟨"BucketName", "b"⟩, ⟨"StorageType", "StandardStorage"⟩]

def glacier_dimensions_example : List Dimension :=
  [⟨"BucketName", "b"⟩, ⟨"StorageType", "GlacierStorage"⟩]

/-- One allow-listed metric (StandardStorage, average 42 bytes) and one
non-allow-listed metric (GlacierStorage, average 7 bytes). -/
def cloudwatch_example : CloudwatchClient :=
  ⟨fun _ => [⟨[⟨standard_dimensions_example⟩, ⟨glacier_dimensions_example⟩]⟩],
   fun dims => if dims = standard_dimensions_example then [⟨42⟩] else [⟨7⟩]⟩

/-- An allow-listed metric whose statistics query returns zero datapoints. -/
def cloudwatch_empty_example : CloudwatchClient :=
  ⟨fun _ => [⟨[⟨standard_dimensions_example⟩]⟩], fun _ => []⟩

/-! ## Claims -/

/-- C2: for an instance whose metadata lists N attached volumes and
whose `describe_volumes` call returns those N volumes (in the sense that
their volume ids are exactly the requested ids), `get_ec2_instance_size`
returns exactly N records, each keyed `"{instance_id}::{volume_id}"` and
carrying the volume's GiB size times 1024^3 as its size in bytes. -/
theorem ec2_instance_size_one_record_per_volume (ec2 : Ec2Client) (a g iid : String)
    (h : (ec2.describeVolumes (collect_volume_ids ec2 iid)).map (fun v => v.volumeId) =
      collect_volume_ids ec2 iid) :
    (get_ec2_instance_size ec2 a g iid).length = (collect_volume_ids ec2 iid).length ∧
    ∀ r ∈ get_ec2_instance_size ec2 a g iid,
      ∃ v ∈ ec2.describeVolumes (collect_volume_ids ec2 iid),
        r = ⟨a, g, iid ++ "::" ++ v.volumeId, (v.size : ℚ) * 1024 ^ 3⟩ := by
  constructor
  · have hlen := congrArg List.length h
    rw [List.length_map] at hlen
    simpa [get_ec2_instance_size] using hlen
  · intro r hr
    simp only [get_ec2_instance_size, List.mem_map] at hr
    obtain ⟨v, hv, hvr⟩ := hr
    refine ⟨v, hv, ?_⟩
    rw [← hvr]
    have hsz : (v.size : ℚ) * 1024 * 1024 * 1024 = (v.size : ℚ) * 1024 ^ 3 := by ring
    rw [hsz]

/-- Witness for C2, on the spec's end-to-end scenario. -/
theorem ec2_instance_size_one_record_per_volume_witness :
    ((ec2_example.describeVolumes (collect_volume_ids ec2_example "i-1")).map
        (fun v => v.volumeId) = collect_volume_ids ec2_example "i-1") ∧
    ((get_ec2_instance_size ec2_example "acct" "region" "i-1").length =
        (collect_volume_ids ec2_example "i-1").length ∧
      ∀ r ∈ get_ec2_instance_size ec2_example "acct" "region" "i-1",
        ∃ v ∈ ec2_example.describeVolumes (collect_volume_ids ec2_example "i-1"),
          r = ⟨"acct", "region", "i-1" ++ "::" ++ v.volumeId, (v.size : ℚ) * 1024 ^ 3⟩) ∧
    get_ec2_instance_size ec2_example "acct" "region" "i-1" =
      [⟨"acct", "region", "i-1::vol-a", (20 : ℚ) * 1024 * 1024 * 1024⟩,
       ⟨"acct", "region", "i-1::vol-b", (100 : ℚ) * 1024 * 1024 * 1024⟩] :=
  ⟨rfl, ec2_instance_size_one_record_per_volume ec2_example "acct" "region" "i-1" rfl, rfl⟩

/-- C3: on the aurora path with a non-empty datapoint list,
`get_rds_cluster_size` returns a single record whose size is the integer
truncation of the Maximum statistic of the datapoint selected as index 0
of the timestamp-descending sort, and that datapoint's timestamp is
greatest among all returned datapoints. -/
theorem rds_cluster_size_aurora_latest_datapoint (cluster : DBCluster)
    (rest : List DBCluster) (dps : List RdsDatapoint) (a g c : String)
    (heng : strStartsWith cluster.engine "aurora-" = true) (hne : dps ≠ []) :
    get_rds_cluster_size (cluster :: rest) dps a g c =
      .ok ⟨a, g, c, ((pyInt ((sort_datapoints_desc dps).headD default).maximum : ℤ) : ℚ)⟩ ∧
    (sort_datapoints_desc dps).headD default ∈ dps ∧
    ∀ d ∈ dps, d.timestamp ≤ ((sort_datapoints_desc dps).headD default).timestamp := by
  obtain ⟨hmem, hmax⟩ := sort_desc_headD_max (fun d : RdsDatapoint => d.timestamp) dps hne
  exact ⟨by simp [get_rds_cluster_size, heng, hne], hmem, hmax⟩

/-- Witness for C3: unsorted datapoints, the most recent (timestamp 9)
carries Maximum 55, and the returned size is 55 with no unit conversion. -/
theorem rds_cluster_size_aurora_latest_datapoint_witness :
    (strStartsWith aurora_cluster_example.engine "aurora-" = true ∧
      aurora_datapoints_example ≠ []) ∧
    (get_rds_cluster_size [aurora_cluster_example] aurora_datapoints_example "a" "r" "c" =
        .ok ⟨"a", "r", "c",
          ((pyInt ((sort_datapoints_desc aurora_datapoints_example).headD default).maximum :
            ℤ) : ℚ)⟩ ∧
      (sort_datapoints_desc aurora_datapoints_example).headD default ∈
        aurora_datapoints_example ∧
      ∀ d ∈ aurora_datapoints_example, d.timestamp ≤
        ((sort_datapoints_desc aurora_datapoints_example).headD default).timestamp) ∧
    get_rds_cluster_size [aurora_cluster_example] aurora_datapoints_example "a" "r" "c" =
      .ok ⟨"a", "r", "c", (55 : ℚ)⟩ :=
  ⟨⟨by decide, List.cons_ne_nil _ _⟩,
   rds_cluster_size_aurora_latest_datapoint aurora_cluster_example [] aurora_datapoints_example
     "a" "r" "c" (by decide) (List.cons_ne_nil _ _), rfl⟩

/-- C4: `get_rds_cluster_size` fails exactly when the cluster list is
empty (with the not-found message) or when the head cluster is on the
aurora path and the metric query returned zero datapoints (with the
metric-not-found message); being an `Except`, a failure returns no
record. -/
theorem rds_cluster_size_error_conditions (clusters : List DBCluster)
    (dps : List RdsDatapoint) (a g c : String) :
    ((∃ e, get_rds_cluster_size clusters dps a g c = .error e) ↔
      (clusters = [] ∨ ∃ cl rest, clusters = cl :: rest ∧
        strStartsWith cl.engine "aurora-" = true ∧ dps = [])) ∧
    (clusters = [] →
      get_rds_cluster_size clusters dps a g c = .error (rds_cluster_not_found_message c)) ∧
    (∀ cl rest, clusters = cl :: rest → strStartsWith cl.engine "aurora-" = true →
      dps = [] →
      get_rds_cluster_size clusters dps a g c = .error (rds_metric_not_found_message c)) := by
  refine ⟨⟨?_, ?_⟩, ?_, ?_⟩
  · intro he
    cases clusters with
    | nil => exact Or.inl rfl
    | cons cl rest =>
      by_cases hcase : strStartsWith cl.engine "aurora-" = true → dps ≠ []
      · obtain ⟨r, hr⟩ := get_rds_cluster_size_isOk cl rest dps a g c hcase
        obtain ⟨e, he⟩ := he
        rw [hr] at he
        exact absurd he (by simp)
      · push_neg at hcase
        exact Or.inr ⟨cl, rest, rfl, hcase.1, hcase.2⟩
  · intro hcond
    rcases hcond with h | ⟨cl, rest, hcl, heng, hdps⟩
    · subst h; exact ⟨_, rfl⟩
    · subst hcl; subst hdps
      refine ⟨rds_metric_not_found_message c, ?_⟩
      simp [get_rds_cluster_size, heng]
  · intro h; subst h; rfl
  · intro cl rest hcl heng hdps
    subst hcl; subst hdps
    simp [get_rds_cluster_size, heng]

/-- Witness for C4: both failure conditions at concrete inputs. -/
theorem rds_cluster_size_error_conditions_witness :
    get_rds_cluster_size [] [] "a" "r" "c" = .error (rds_cluster_not_found_message "c") ∧
    get_rds_cluster_size [aurora_cluster_example] [] "a" "r" "c" =
      .error (rds_metric_not_found_message "c") :=
  ⟨(rds_cluster_size_error_conditions [] [] "a" "r" "c").2.1 rfl,
   (rds_cluster_size_error_conditions [aurora_cluster_example] [] "a" "r" "c").2.2
     aurora_cluster_example [] rfl (by decide) rfl⟩

/-- C5: `get_redshift_cluster_size` selects the snapshot with the latest
`SnapshotCreateTime` (index 0 of the locally re-sorted list) even from an
unsorted collection, returns its `TotalBackupSizeInMegaBytes` times
1024^2, and errors on an empty snapshot collection. -/
theorem redshift_cluster_size_latest_snapshot (snaps : List Snapshot) (a g c : String) :
    (snaps = [] →
      get_redshift_cluster_size snaps a g c = .error (redshift_no_snapshots_message c)) ∧
    (snaps ≠ [] →
      get_redshift_cluster_size snaps a g c =
        .ok ⟨a, g, c,
          ((sort_snapshots_desc snaps).headD default).totalBackupSizeInMegaBytes * 1024 ^ 2⟩ ∧
      (sort_snapshots_desc snaps).headD default ∈ snaps ∧
      ∀ s ∈ snaps, s.snapshotCreateTime ≤
        ((sort_snapshots_desc snaps).headD default).snapshotCreateTime) := by
  constructor
  · intro h; subst h; rfl
  · intro hne
    obtain ⟨hmem, hmax⟩ :=
      sort_desc_headD_max (fun s : Snapshot => s.snapshotCreateTime) snaps hne
    have hsne : sort_snapshots_desc snaps ≠ [] := by
      simpa [sort_snapshots_desc, sort_desc_eq_nil_iff] using hne
    refine ⟨?_, hmem, hmax⟩
    have hsz : ∀ q : ℚ, q * 1024 * 1024 = q * 1024 ^ 2 := fun q => by ring
    simp only [get_redshift_cluster_size, if_neg hsne, hsz]

/-- Witness for C5: an unsorted snapshot list whose latest snapshot
(creation time 5) carries 99 MiB, plus the empty-list failure. -/
theorem redshift_cluster_size_latest_snapshot_witness :
    snapshots_example ≠ [] ∧
    (get_redshift_cluster_size snapshots_example "a" "r" "c" =
        .ok ⟨"a", "r", "c",
          ((sort_snapshots_desc snapshots_example).headD default).totalBackupSizeInMegaBytes *
            1024 ^ 2⟩ ∧
      (sort_snapshots_desc snapshots_example).headD default ∈ snapshots_example ∧
      ∀ s ∈ snapshots_example, s.snapshotCreateTime ≤
        ((sort_snapshots_desc snapshots_example).headD default).snapshotCreateTime) ∧
    get_redshift_cluster_size [] "a" "r" "c" =
      .error (redshift_no_snapshots_message "c") ∧
    get_redshift_cluster_size snapshots_example "a" "r" "c" =
      .ok ⟨"a", "r", "c", (99 : ℚ) * 1024 * 1024⟩ :=
  ⟨List.cons_ne_nil _ _,
   (redshift_cluster_size_latest_snapshot snapshots_example "a" "r" "c").2
     (List.cons_ne_nil _ _),
   (redshift_cluster_size_latest_snapshot [] "a" "r" "c").1 rfl, rfl⟩

/-- C6: in the validation phase of `get_bucket_size`, an empty or absent
location constraint is normalized to `"us-east-1"` before comparison, so
target region `"us-east-1"` passes validation against such a bucket,
while any (normalized) declared region differing from the target region
fails validation with the region-mismatch error (wrapped by the catch-all). -/
theorem bucket_validation_default_region (s3 : S3Client) (b : String) :
    (∀ lc, s3.getBucketLocation b = .ok lc → (lc = none ∨ lc = some "") →
      normalize_location lc = "us-east-1" ∧ bucket_validation s3 b "us-east-1" = .ok ()) ∧
    (∀ lc t, s3.getBucketLocation b = .ok lc → normalize_location lc ≠ t →
      bucket_validation s3 b t =
        .error (.exc (bucket_wrap_message b t (region_mismatch_message b t)))) := by
  constructor
  · intro lc hlc hcase
    have hnorm : normalize_location lc = "us-east-1" := by
      rcases hcase with h | h <;> subst h <;> rfl
    refine ⟨hnorm, ?_⟩
    simp [bucket_validation, hlc, hnorm]
  · intro lc t hlc hne
    simp [bucket_validation, hlc, hne]

/-- Witness for C6: an empty location constraint passes validation for
target `"us-east-1"` and fails for target `"eu-west-1"`. -/
theorem bucket_validation_default_region_witness :
    (s3_example.getBucketLocation "b" = .ok (some "") ∧
      (normalize_location (some "") = "us-east-1" ∧
        bucket_validation s3_example "b" "us-east-1" = .ok ())) ∧
    (normalize_location (some "") ≠ "eu-west-1" ∧
      bucket_validation s3_example "b" "eu-west-1" =
        .error (.exc (bucket_wrap_message "b" "eu-west-1"
          (region_mismatch_message "b" "eu-west-1")))) :=
  ⟨⟨rfl, (bucket_validation_default_region s3_example "b").1 (some "") rfl (Or.inr rfl)⟩,
   ⟨by decide,
    (bucket_validation_default_region s3_example "b").2 (some "") "eu-west-1" rfl (by decide)⟩⟩

/-- C7: every failure in the validation phase of `get_bucket_size` — a
failing provider call (nonexistent bucket, invalid credentials) as well
as the internally raised region mismatch — is re-raised as the single
wrapping error whose message embeds the original message; any validation
error is of that wrapped shape, and it is what `get_bucket_size` raises. -/
theorem bucket_validation_wraps_all_failures (s3 : S3Client) (cw : CloudwatchClient)
    (a b t : String) :
    (∀ m, s3.getBucketLocation b = .error m →
      bucket_validation s3 b t = .error (.exc (bucket_wrap_message b t m))) ∧
    (∀ lc, s3.getBucketLocation b = .ok lc → normalize_location lc ≠ t →
      bucket_validation s3 b t =
        .error (.exc (bucket_wrap_message b t (region_mismatch_message b t)))) ∧
    (∀ e, bucket_validation s3 b t = .error e →
      ∃ m, e = .exc (bucket_wrap_message b t m)) ∧
    (∀ e, bucket_validation s3 b t = .error e → get_bucket_size s3 cw a t b = .error e) := by
  refine ⟨?_, ?_, ?_, ?_⟩
  · intro m hm
    simp [bucket_validation, hm]
  · intro lc hlc hne
    simp [bucket_validation, hlc, hne]
  · intro e he
    cases hloc : s3.getBucketLocation b with
    | error m =>
      refine ⟨m, ?_⟩
      have : bucket_validation s3 b t = .error (.exc (bucket_wrap_message b t m)) := by
        simp [bucket_validation, hloc]
      rw [this] at he
      exact (Except.error.injEq _ _).mp he.symm
    | ok lc =>
      by_cases hne : normalize_location lc ≠ t
      · refine ⟨region_mismatch_message b t, ?_⟩
        have : bucket_validation s3 b t =
            .error (.exc (bucket_wrap_message b t (region_mismatch_message b t))) := by
          simp [bucket_validation, hloc, hne]
        rw [this] at he
        exact (Except.error.injEq _ _).mp he.symm
      · push_neg at hne
        have : bucket_validation s3 b t = .ok () := by
          simp [bucket_validation, hloc, hne]
        rw [this] at he
        exact absurd he (by simp)
  · intro e he
    simp [get_bucket_size, he]

/-- Witness for C7: a failing provider call and a region mismatch, both
re-raised wrapped, and propagated unchanged by `get_bucket_size`. -/
theorem bucket_validation_wraps_all_failures_witness :
    bucket_validation s3_failing_example "b" "us-east-1" =
      .error (.exc (bucket_wrap_message "b" "us-east-1" "NoSuchBucket")) ∧
    bucket_validation s3_example "b" "eu-west-1" =
      .error (.exc (bucket_wrap_message "b" "eu-west-1"
        (region_mismatch_message "b" "eu-west-1"))) ∧
    get_bucket_size s3_failing_example cloudwatch_example "a" "us-east-1" "b" =
      .error (.exc (bucket_wrap_message "b" "us-east-1" "NoSuchBucket")) :=
  ⟨(bucket_validation_wraps_all_failures s3_failing_example cloudwatch_example
      "a" "b" "us-east-1").1 "NoSuchBucket" rfl,
   (bucket_validation_wraps_all_failures s3_example cloudwatch_example
      "a" "b" "eu-west-1").2.1 (some "") rfl (by decide),
   (bucket_validation_wraps_all_failures s3_failing_example cloudwatch_example
      "a" "b" "us-east-1").2.2.2 _
     ((bucket_validation_wraps_all_failures s3_failing_example cloudwatch_example
        "a" "b" "us-east-1").1 "NoSuchBucket" rfl)⟩

/-- The extraction result and success value of `get_bucket_size` for
`s3_example` with `cloudwatch_example`. -/
def metric_dimensions_example : List (String × List Dimension) :=
  [("StandardStorage", standard_dimensions_example),
   ("GlacierStorage", glacier_dimensions_example)]

def bucket_result_example : BucketSizeResult :=
  ⟨[standard_dimensions_example, glacier_dimensions_example],
   [⟨"a", "us-east-1", "b::StandardStorage", 42⟩]⟩

/-- C8: on a successful run, `get_bucket_size` returns exactly the
records of the metrics whose storage class is in the nine-element
allow-list, keyed `"{bucket_name}::{storage_type}"` with the unconverted
Average statistic; when storage classes in the listing are distinct, each
allow-listed listed class yields exactly one record and every other class
(e.g. GlacierStorage) yields zero. -/
theorem bucket_size_allowlist_records (s3 : S3Client) (cw : CloudwatchClient)
    (a g b : String) (res : BucketSizeResult) (mds : List (String × List Dimension))
    (hex : extract_metric_dimensions ((cw.listMetrics b).flatMap fun page => page.metrics) =
      .ok mds)
    (hok : get_bucket_size s3 cw a g b = .ok res) :
    backup_storage_types.length = 9 ∧
    res.metric_data =
      (mds.filter fun p => decide (p.1 ∈ backup_storage_types)).map (bucket_record cw a g b) ∧
    (∀ r ∈ res.metric_data, ∃ p, p ∈ mds ∧ p.1 ∈ backup_storage_types ∧
      r.resource_key = b ++ "::" ++ p.1 ∧
      r.size_bytes = ((cw.getMetricStatistics p.2).headD default).average) ∧
    ((mds.map fun p => p.1).Nodup →
      ∀ st : String,
        (res.metric_data.countP fun r => decide (r.resource_key = b ++ "::" ++ st)) =
          if st ∈ backup_storage_types ∧ st ∈ mds.map (fun p => p.1) then 1 else 0) := by
  obtain ⟨hval, mds', hex', hcol⟩ := get_bucket_size_ok_elim s3 cw a g b res hok
  rw [hex] at hex'
  injection hex' with hmds
  subst hmds
  obtain ⟨hq, hr, hnonempty⟩ :=
    collect_metric_data_ok cw a g b mds res.queried_dimensions res.metric_data hcol
  refine ⟨by decide, hr, ?_, ?_⟩
  · intro r hrmem
    rw [hr] at hrmem
    obtain ⟨p, hpmem, hpr⟩ := List.mem_map.mp hrmem
    rw [List.mem_filter] at hpmem
    refine ⟨p, hpmem.1, by simpa using hpmem.2, ?_, ?_⟩
    · rw [← hpr]; rfl
    · rw [← hpr]; rfl
  · intro hnodup st
    rw [hr, List.countP_map, List.countP_filter]
    by_cases hst : st ∈ backup_storage_types
    · by_cases hmem : st ∈ mds.map (fun p => p.1)
      · rw [if_pos ⟨hst, hmem⟩]
        show List.countP (fun p : String × List Dimension =>
          decide ((bucket_record cw a g b p).resource_key = b ++ "::" ++ st) &&
            decide (p.1 ∈ backup_storage_types)) mds = 1
        have hcong : ∀ p ∈ mds,
            ((decide ((bucket_record cw a g b p).resource_key = b ++ "::" ++ st) &&
              decide (p.1 ∈ backup_storage_types)) = true) ↔ (decide (p.1 = st) = true) := by
          intro p _
          by_cases hpe : p.1 = st
          · simp [bucket_record, hpe, hst]
          · have hkey : ¬ (b ++ "::" ++ p.1 = b ++ "::" ++ st) := fun hcontra =>
              hpe (string_append_cancel_left (b ++ "::") p.1 st hcontra)
            simp [bucket_record, hkey, hpe]
        rw [List.countP_congr hcong]
        have hcnt : List.countP (fun p : String × List Dimension => decide (p.1 = st)) mds =
            List.count st (mds.map fun p => p.1) := by
          have : List.count st (mds.map fun p => p.1) =
              List.countP (fun x => x == st) (mds.map fun p => p.1) := rfl
          rw [this, List.countP_map]
          refine List.countP_congr ?_
          intro p _
          by_cases hpe : p.1 = st <;> simp [hpe]
        rw [hcnt]
        exact List.count_eq_one_of_mem hnodup hmem
      · rw [if_neg (fun hc => hmem hc.2)]
        show List.countP (fun p : String × List Dimension =>
          decide ((bucket_record cw a g b p).resource_key = b ++ "::" ++ st) &&
            decide (p.1 ∈ backup_storage_types)) mds = 0
        rw [List.countP_eq_zero]
        intro p hp hcontra
        simp only [bucket_record, Bool.and_eq_true, decide_eq_true_eq] at hcontra
        have hpe : p.1 = st :=
          string_append_cancel_left (b ++ "::") p.1 st hcontra.1
        exact hmem (List.mem_map.mpr ⟨p, hp, hpe⟩)
    · rw [if_neg (fun hc => hst hc.1)]
      show List.countP (fun p : String × List Dimension =>
        decide ((bucket_record cw a g b p).resource_key = b ++ "::" ++ st) &&
          decide (p.1 ∈ backup_storage_types)) mds = 0
      rw [List.countP_eq_zero]
      intro p hp hcontra
      simp only [bucket_record, Bool.and_eq_true, decide_eq_true_eq] at hcontra
      have hpe : p.1 = st :=
        string_append_cancel_left (b ++ "::") p.1 st hcontra.1
      exact hst (hpe ▸ hcontra.2)

/-- Witness for C8: a listing with StandardStorage (allow-listed, average
42) and GlacierStorage (not allow-listed): exactly one record, keyed
`b::StandardStorage`, and zero records for GlacierStorage. -/
theorem bucket_size_allowlist_records_witness :
    (backup_storage_types.length = 9 ∧
      bucket_result_example.metric_data =
        (metric_dimensions_example.filter fun p =>
          decide (p.1 ∈ backup_storage_types)).map
          (bucket_record cloudwatch_example "a" "us-east-1" "b") ∧
      (∀ r ∈ bucket_result_example.metric_data, ∃ p, p ∈ metric_dimensions_example ∧
        p.1 ∈ backup_storage_types ∧
        r.resource_key = "b" ++ "::" ++ p.1 ∧
        r.size_bytes =
          ((cloudwatch_example.getMetricStatistics p.2).headD default).average) ∧
      ((metric_dimensions_example.map fun p => p.1).Nodup →
        ∀ st : String,
          (bucket_result_example.metric_data.countP fun r =>
            decide (r.resource_key = "b" ++ "::" ++ st)) =
            if st ∈ backup_storage_types ∧
                st ∈ metric_dimensions_example.map (fun p => p.1) then 1 else 0)) ∧
    (bucket_result_example.metric_data.countP fun r =>
      decide (r.resource_key = "b" ++ "::" ++ "GlacierStorage")) = 0 ∧
    bucket_result_example.metric_data =
      [⟨"a", "us-east-1", "b::StandardStorage", 42⟩] :=
  ⟨bucket_size_allowlist_records s3_example cloudwatch_example "a" "us-east-1" "b"
      bucket_result_example metric_dimensions_example rfl rfl,
   rfl, rfl⟩

/-- C9: for an allow-listed metric, datapoint index 0 is taken without
emptiness checking, so the whole lookup fails with a Python IndexError
whenever the statistics query of some allow-listed metric returns zero
datapoints. -/
theorem bucket_size_index_error_on_empty_datapoints (s3 : S3Client)
    (cw : CloudwatchClient) (a g b : String) (mds : List (String × List Dimension))
    (hval : bucket_validation s3 b g = .ok ())
    (hex : extract_metric_dimensions ((cw.listMetrics b).flatMap fun page => page.metrics) =
      .ok mds) :
    ∀ p ∈ mds, p.1 ∈ backup_storage_types → cw.getMetricStatistics p.2 = [] →
      get_bucket_size s3 cw a g b = .error .indexError := by
  intro p hp hallow hempty
  have hcol := collect_metric_data_error_of_empty cw a g b mds p hp hallow hempty
  simp only [get_bucket_size, hval, hex, hcol]

/-- Witness for C9: an allow-listed StandardStorage metric whose
statistics response is empty makes the lookup fail with an IndexError. -/
theorem bucket_size_index_error_on_empty_datapoints_witness :
    bucket_validation s3_example "b" "us-east-1" = .ok () ∧
    ("StandardStorage", standard_dimensions_example).1 ∈ backup_storage_types ∧
    cloudwatch_empty_example.getMetricStatistics standard_dimensions_example = [] ∧
    get_bucket_size s3_example cloudwatch_empty_example "a" "us-east-1" "b" =
      .error .indexError :=
  ⟨rfl, by decide, rfl,
   bucket_size_index_error_on_empty_datapoints s3_example cloudwatch_empty_example
     "a" "us-east-1" "b" [("StandardStorage", standard_dimensions_example)] rfl rfl
     ("StandardStorage", standard_dimensions_example) (List.Mem.head _) (by decide) rfl⟩

/-- C10 counterexample: the claim says metrics of non-allow-listed
storage classes are filtered out before any statistics query is
performed for them; here the only metrics are StandardStorage and
GlacierStorage, GlacierStorage is not allow-listed, and the query trace
of the successful run nevertheless contains GlacierStorage's dimension
set — the statistics query was issued for it. -/
theorem bucket_size_prequery_filter_counterexample :
    get_bucket_size s3_example cloudwatch_example "a" "us-east-1" "b" =
      .ok bucket_result_example ∧
    extract_storage_type ⟨glacier_dimensions_example⟩ = .ok "GlacierStorage" ∧
    "GlacierStorage" ∉ backup_storage_types ∧
    glacier_dimensions_example ∈ bucket_result_example.queried_dimensions :=
  ⟨rfl, rfl, by decide, by decide⟩

/-- C10 amended: the per-metric statistics query is issued for every
metric in the listing, allow-listed or not, in listing order; the
allow-list filter is applied only afterwards, when deciding whether to
append a record. -/
theorem bucket_size_queries_every_metric (s3 : S3Client) (cw : CloudwatchClient)
    (a g b : String) (res : BucketSizeResult) (mds : List (String × List Dimension))
    (hex : extract_metric_dimensions ((cw.listMetrics b).flatMap fun page => page.metrics) =
      .ok mds)
    (hok : get_bucket_size s3 cw a g b = .ok res) :
    res.queried_dimensions = mds.map fun p => p.2 := by
  obtain ⟨hval, mds', hex', hcol⟩ := get_bucket_size_ok_elim s3 cw a g b res hok
  rw [hex] at hex'
  injection hex' with hmds
  subst hmds
  exact (collect_metric_data_ok cw a g b mds res.queried_dimensions res.metric_data hcol).1

/-- Witness for C10's amended claim, on the StandardStorage/GlacierStorage
listing: both dimension sets are queried. -/
theorem bucket_size_queries_every_metric_witness :
    bucket_result_example.queried_dimensions =
      metric_dimensions_example.map fun p => p.2 :=
  bucket_size_queries_every_metric s3_example cloudwatch_example "a" "us-east-1" "b"
    bucket_result_example metric_dimensions_example rfl rfl

/-- C1: unit conversions across all lookups.  GiB-denominated sizes
(EC2 volume sizes, RDS cluster allocated storage, RDS instance allocated
storage) are multiplied by exactly 1024^3; the Redshift snapshot's
MiB-denominated size is multiplied by exactly 1024^2; byte-native fields
(EFS SizeInBytes, DynamoDB TableSizeBytes, S3 metric averages, aurora
metric maxima) get no unit conversion. -/
theorem unit_conversions :
    (∀ (ec2 : Ec2Client) (a g i : String), ∀ r ∈ get_ec2_instance_size ec2 a g i,
      ∃ v ∈ ec2.describeVolumes (collect_volume_ids ec2 i),
        r.size_bytes = (v.size : ℚ) * 1024 ^ 3) ∧
    (∀ (cluster : DBCluster) (rest : List DBCluster) (dps : List RdsDatapoint)
        (a g c : String), strStartsWith cluster.engine "aurora-" = false →
      get_rds_cluster_size (cluster :: rest) dps a g c =
        .ok ⟨a, g, c, (cluster.allocatedStorage : ℚ) * 1024 ^ 3⟩) ∧
    (∀ (inst : DBInstance) (rest : List DBInstance) (a g i : String),
      get_rds_instance_size (inst :: rest) a g i =
        .ok ⟨a, g, i, (inst.allocatedStorage : ℚ) * 1024 ^ 3⟩) ∧
    (∀ (snaps : List Snapshot) (a g c : String) (r : SizeRecord),
      get_redshift_cluster_size snaps a g c = .ok r →
      ∃ s ∈ snaps, r.size_bytes = s.totalBackupSizeInMegaBytes * 1024 ^ 2) ∧
    (∀ (fs : FileSystem) (rest : List FileSystem) (a g f : String),
      get_efs_file_system_size (fs :: rest) a g f =
        .ok ⟨a, g, f, (fs.sizeInBytes.value : ℚ)⟩) ∧
    (∀ (t : DdbTable) (a g n : String),
      (get_dynamodb_table_size t a g n).size_bytes = (t.tableSizeBytes : ℚ)) ∧
    (∀ (s3 : S3Client) (cw : CloudwatchClient) (a g b : String) (res : BucketSizeResult),
      get_bucket_size s3 cw a g b = .ok res →
      ∀ r ∈ res.metric_data, ∃ dims : List Dimension,
        r.size_bytes = ((cw.getMetricStatistics dims).headD default).average) ∧
    (∀ (cluster : DBCluster) (rest : List DBCluster) (dps : List RdsDatapoint)
        (a g c : String), strStartsWith cluster.engine "aurora-" = true → dps ≠ [] →
      get_rds_cluster_size (cluster :: rest) dps a g c =
        .ok ⟨a, g, c,
          ((pyInt ((sort_datapoints_desc dps).headD default).maximum : ℤ) : ℚ)⟩) := by
  refine ⟨?_, ?_, ?_, ?_, ?_, ?_, ?_, ?_⟩
  · intro ec2 a g i r hr
    simp only [get_ec2_instance_size, List.mem_map] at hr
    obtain ⟨v, hv, hvr⟩ := hr
    refine ⟨v, hv, ?_⟩
    rw [← hvr]
    show (v.size : ℚ) * 1024 * 1024 * 1024 = (v.size : ℚ) * 1024 ^ 3
    ring
  · intro cluster rest dps a g c heng
    have hstep : get_rds_cluster_size (cluster :: rest) dps a g c =
        .ok ⟨a, g, c, (cluster.allocatedStorage : ℚ) * 1024 * 1024 * 1024⟩ := by
      simp [get_rds_cluster_size, heng]
    rw [hstep,
      show (cluster.allocatedStorage : ℚ) * 1024 * 1024 * 1024 =
        (cluster.allocatedStorage : ℚ) * 1024 ^ 3 from by ring]
  · intro inst rest a g i
    have hstep : get_rds_instance_size (inst :: rest) a g i =
        .ok ⟨a, g, i, (inst.allocatedStorage : ℚ) * 1024 * 1024 * 1024⟩ := rfl
    rw [hstep,
      show (inst.allocatedStorage : ℚ) * 1024 * 1024 * 1024 =
        (inst.allocatedStorage : ℚ) * 1024 ^ 3 from by ring]
  · intro snaps a g c r hok
    by_cases hne : snaps = []
    · subst hne
      exact absurd hok (by simp [get_redshift_cluster_size, sort_snapshots_desc, sort_desc])
    · have hsne : sort_snapshots_desc snaps ≠ [] := by
        simpa [sort_snapshots_desc, sort_desc_eq_nil_iff] using hne
      obtain ⟨hmem, _⟩ :=
        sort_desc_headD_max (fun s : Snapshot => s.snapshotCreateTime) snaps hne
      refine ⟨_, hmem, ?_⟩
      simp only [get_redshift_cluster_size, if_neg hsne, Except.ok.injEq] at hok
      rw [← hok]
      show ((sort_snapshots_desc snaps).headD default).totalBackupSizeInMegaBytes *
          1024 * 1024 =
        ((sort_snapshots_desc snaps).headD default).totalBackupSizeInMegaBytes * 1024 ^ 2
      ring
  · intro fs rest a g f
    rfl
  · intro t a g n
    rfl
  · intro s3 cw a g b res hok r hr
    obtain ⟨hval, mds, hex, hcol⟩ := get_bucket_size_ok_elim s3 cw a g b res hok
    obtain ⟨hq, hrec, hnonempty⟩ :=
      collect_metric_data_ok cw a g b mds res.queried_dimensions res.metric_data hcol
    rw [hrec] at hr
    obtain ⟨p, _, hpr⟩ := List.mem_map.mp hr
    refine ⟨p.2, ?_⟩
    rw [← hpr]
    rfl
  · intro cluster rest dps a g c heng hne
    simp [get_rds_cluster_size, heng, hne]

/-- Witness for C1: each conversion exercised at a concrete input. -/
theorem unit_conversions_witness :
    (∃ v ∈ ec2_example.describeVolumes (collect_volume_ids ec2_example "i-1"),
      (SizeRecord.mk "acct" "region" "i-1::vol-a"
        ((20 : ℚ) * 1024 * 1024 * 1024)).size_bytes = (v.size : ℚ) * 1024 ^ 3) ∧
    get_rds_cluster_size [⟨"postgres", 5⟩] [] "a" "r" "c" =
      .ok ⟨"a", "r", "c", (5 : ℚ) * 1024 ^ 3⟩ ∧
    get_rds_instance_size [⟨7⟩] "a" "r" "i" = .ok ⟨"a", "r", "i", (7 : ℚ) * 1024 ^ 3⟩ ∧
    (∃ s ∈ snapshots_example,
      (SizeRecord.mk "a" "r" "c" ((99 : ℚ) * 1024 * 1024)).size_bytes =
        s.totalBackupSizeInMegaBytes * 1024 ^ 2) ∧
    get_efs_file_system_size [⟨⟨123⟩⟩] "a" "r" "f" = .ok ⟨"a", "r", "f", (123 : ℚ)⟩ ∧
    (get_dynamodb_table_size ⟨456⟩ "a" "r" "t").size_bytes = (456 : ℚ) ∧
    (∃ dims : List Dimension,
      (SizeRecord.mk "a" "us-east-1" "b::StandardStorage" 42).size_bytes =
        ((cloudwatch_example.getMetricStatistics dims).headD default).average) ∧
    get_rds_cluster_size [aurora_cluster_example] aurora_datapoints_example "a" "r" "c" =
      .ok ⟨"a", "r", "c",
        ((pyInt ((sort_datapoints_desc aurora_datapoints_example).headD
          default).maximum : ℤ) : ℚ)⟩ :=
  ⟨unit_conversions.1 ec2_example "acct" "region" "i-1" _ (by exact List.Mem.head _),
   unit_conversions.2.1 ⟨"postgres", 5⟩ [] [] "a" "r" "c" (by decide),
   unit_conversions.2.2.1 ⟨7⟩ [] "a" "r" "i",
   unit_conversions.2.2.2.1 snapshots_example "a" "r" "c"
     ⟨"a", "r", "c", (99 : ℚ) * 1024 * 1024⟩ rfl,
   unit_conversions.2.2.2.2.1 ⟨⟨123⟩⟩ [] "a" "r" "f",
   unit_conversions.2.2.2.2.2.1 ⟨456⟩ "a" "r" "t",
   unit_conversions.2.2.2.2.2.2.1 s3_example cloudwatch_example "a" "us-east-1" "b"
     bucket_result_example rfl _ (by exact List.Mem.head _),
   unit_conversions.2.2.2.2.2.2.2 aurora_cluster_example [] aurora_datapoints_example
     "a" "r" "c" (by decide) (List.cons_ne_nil _ _)⟩

end Inventory
